import Mathlib

/-!
Shallow embedding of the notification-dispatch core of `autopush-rs`
(`autoendpoint`): the unified error model (`src/autoendpoint/src/error.rs`)
and the WNS backend router
(`src/autoendpoint/src/routers/wns/router.rs`), together with proofs of
the specification's testable properties.

Machine integers (`usize`, `u16`) are modelled as `Nat`; the `as usize`
cast of a signed TTL is modelled explicitly modulo `2 ^ 64` (a 64-bit
`usize`). External crates (actix, serde_json, url, validator, thiserror)
are modelled only as far as the sources use them, following the crate
semantics the source relies on.
-/

/-- A wrapped source error, as seen through `std::error::Error`: a display
string plus an optional deeper source.  Models the error values of the
external crates (`std::io::Error`, `cadence::MetricError`, openssl error
stacks, `DbError`, JWT errors, VAPID errors) that `ApiErrorKind` wraps;
only their `Display` output and their `source()` chain are observable in
`error.rs`. -/
inductive Src where
  | mk (display : String) (source : Option Src)

/-- The `Display` output of a wrapped source error. -/
def Src.display : Src → String
  | .mk d _ => d

/-- The `source()` of a wrapped source error. -/
def Src.source : Src → Option Src
  | .mk _ s => s

/-- The list of display strings of an error and all its transitive
sources, outermost first. -/
def Src.chainList : Src → List String
  | .mk d none => [d]
  | .mk d (some s) => d :: s.chainList

/-- A `serde_json::Value`, as far as the sources use it: router data maps
hold arbitrary JSON values and the code reads them with `Value::as_str`. -/
inductive Value where
  | null
  | bool (b : Bool)
  | num (n : Int)
  | str (s : String)
  | arr (elems : List Value)
  | obj (fields : List (String × Value))

/-- `serde_json::Value::as_str`: `Some` exactly on JSON strings. -/
def Value.as_str : Value → Option String
  | .str s => some s
  | _ => none

/-- `HashMap::get` on a string-keyed map, modelled as first-match lookup
in an association list. -/
def hmGet (m : List (String × Value)) (k : String) : Option Value :=
  match m with
  | [] => none
  | (k2, v) :: rest => if k2 = k then some v else hmGet rest k

mutual
/-- `validator::ValidationErrorsKind`, as far as
`errno_from_validation_errors` in `error.rs` consumes it: a nested
struct error, an indexed list of nested errors, or field errors
carrying string codes.  Map values are modelled as lists (the embedding
fixes one iteration order). -/
inductive ValidationErrorsKind where
  | structK (inner : ValidationErrors)
  | listK (items : List ValidationErrors)
  | fieldK (codes : List String)
/-- `validator::ValidationErrors`: display string, optional std source,
and the values of its `errors()` map. -/
inductive ValidationErrors where
  | mk (display : String) (src : Option Src) (errors : List ValidationErrorsKind)
end

/-- Display string of a `ValidationErrors` (the external validator
crate's `Display`, carried as data). -/
def ValidationErrors.display : ValidationErrors → String
  | .mk d _ _ => d

/-- `source()` of a `ValidationErrors`. -/
def ValidationErrors.src : ValidationErrors → Option Src
  | .mk _ s _ => s

/-- The values of the `errors()` map of a `ValidationErrors`. -/
def ValidationErrors.errors : ValidationErrors → List ValidationErrorsKind
  | .mk _ _ e => e

/-- First parseable numeric code among a field's error codes
(`error.code.parse().ok()` filtered, first hit). -/
def firstFieldCode (codes : List String) : Option Nat :=
  match codes with
  | [] => none
  | c :: rest =>
    match c.toNat? with
    | some n => some n
    | none => firstFieldCode rest

mutual
/-- `errno_from_validation_errors` (`error.rs`): the first error number
found among the nested validation errors, else `None`. -/
def errno_from_validation_errors : ValidationErrors → Option Nat
  | .mk _ _ errors => errnoFromKindList errors

/-- First error number among the values of an `errors()` map, in
iteration order (the flattened iterator's `next()`). -/
def errnoFromKindList : List ValidationErrorsKind → Option Nat
  | [] => none
  | k :: rest =>
    match errnoFromKind k with
    | some n => some n
    | none => errnoFromKindList rest

/-- Error number contributed by one `ValidationErrorsKind` subtree. -/
def errnoFromKind : ValidationErrorsKind → Option Nat
  | .structK inner => errno_from_validation_errors inner
  | .listK items => errnoFromVEList items
  | .fieldK codes => firstFieldCode codes

/-- First error number among an indexed list of nested errors
(`indexed_errors.values().filter_map(...)`, first hit). -/
def errnoFromVEList : List ValidationErrors → Option Nat
  | [] => none
  | v :: rest =>
    match errno_from_validation_errors v with
    | some n => some n
    | none => errnoFromVEList rest
end

/-- `actix_web::error::PayloadError`, as far as `error.rs` uses it:
the `Overflow` variant is distinguished (it drives errno 104); all other
variants are collapsed into `other` with their display string.
`PayloadError` does not implement `std::error::Error` (per the comment
in `error.rs`), so it contributes no source. -/
inductive PayloadErr where
  | overflow
  | other (display : String)

/-- Modelled from the spec: `PayloadError::status_code` lives in the
external actix-web crate; the spec's taxonomy table (§7) fixes
"Transport/payload overflow → 413", and actix maps the remaining payload
errors to 400. -/
def PayloadErr.status_code : PayloadErr → Nat
  | .overflow => 413
  | .other _ => 400

/-- `PayloadError` display (`#[error("{0}")]` in `error.rs` renders the
inner error's display). -/
def PayloadErr.display : PayloadErr → String
  | .overflow => "payload reached size limit"
  | .other d => d

/-- Modelled from the spec: `WnsError`
(`src/autoendpoint/src/routers/wns/error.rs` is not among the sources;
only its use sites in `router.rs` are).  The variants used by
`router.rs`: `NoRegistrationToken` (absent routing data or missing
`token` key), `NoAppId` (missing `app_id` key), `InvalidAppId` (no
client in the pool), plus an upstream relay error for failed sends. -/
inductive WnsError where
  | NoRegistrationToken
  | NoAppId
  | InvalidAppId (app_id : String)
  | upstream (display : String)

/-- Modelled from the spec: display strings for `WnsError` (its
`thiserror` derive is not among the sources). -/
def WnsError.display : WnsError → String
  | .NoRegistrationToken => "No registration token found"
  | .NoAppId => "No app ID found"
  | .InvalidAppId a => "Invalid app ID: " ++ a
  | .upstream d => d

/-- Modelled from the spec: `RouterError`
(`src/autoendpoint/src/routers/mod.rs` is not among the sources).  The
variants visible from `router.rs` and the spec: a WNS backend error and
the `NotFound` classification produced by `handle_error` when the relay
reports the registration gone. -/
inductive RouterError where
  | Wns (e : WnsError)
  | NotFound

/-- Modelled from the spec: `RouterError` display. -/
def RouterError.display : RouterError → String
  | .Wns e => e.display
  | .NotFound => "Not found"

/-- Modelled from the spec: backend-defined status (§7 "Backend-specific
error | backend-defined"): routing-data and registration failures are
permanent (410 Gone), upstream relay faults are 500. -/
def RouterError.status : RouterError → Nat
  | .Wns .NoRegistrationToken | .Wns .NoAppId | .Wns (.InvalidAppId _) => 410
  | .Wns (.upstream _) => 500
  | .NotFound => 410

/-- Modelled from the spec: backend-defined errno (§7). -/
def RouterError.errno : RouterError → Option Nat
  | .Wns .NoRegistrationToken | .Wns .NoAppId | .Wns (.InvalidAppId _) => some 106
  | .Wns (.upstream _) => none
  | .NotFound => some 103

/-- `ApiErrorKind` (`error.rs`): the closed set of failure variants.
Wrapped external errors are carried as `Src` values (their display and
source chain are all the sources observe); `Router` carries the modelled
`RouterError`; the remaining variants carry exactly the context
`error.rs` gives them. -/
inductive ApiErrorKind where
  | Io (e : Src)
  | Metrics (e : Src)
  | Validation (e : ValidationErrors)
  | PayloadError (e : PayloadErr)
  | VapidError (e : Src)
  | Router (e : RouterError)
  | Jwt (e : Src)
  | TokenHashValidation (e : Src)
  | Database (e : Src)
  | InvalidToken
  | NoUser
  | NoSubscription
  | InvalidEncryption (s : String)
  | PayloadTooLarge (n : Nat)
  | InvalidApiVersion
  | NoTTL
  | Internal (s : String)

/-- `ApiErrorKind::status` (`error.rs`): the associated HTTP status code,
as a `Nat` (`StatusCode` holds a `u16`). -/
def ApiErrorKind.status : ApiErrorKind → Nat
  | .PayloadError e => e.status_code
  | .Router e => e.status
  | .Validation _ | .InvalidEncryption _ | .TokenHashValidation _ | .NoTTL => 400
  | .NoUser | .NoSubscription => 410
  | .VapidError _ | .Jwt _ => 401
  | .InvalidToken | .InvalidApiVersion => 404
  | .PayloadTooLarge _ => 413
  | .Io _ | .Metrics _ | .Database _ | .Internal _ => 500

/-- `ApiErrorKind::errno` (`error.rs`): the associated error number. -/
def ApiErrorKind.errno : ApiErrorKind → Option Nat
  | .Router e => e.errno
  | .Validation e => errno_from_validation_errors e
  | .InvalidToken | .InvalidApiVersion => some 102
  | .NoUser => some 103
  | .PayloadError .overflow | .PayloadTooLarge _ => some 104
  | .NoSubscription => some 106
  | .VapidError _ | .TokenHashValidation _ | .Jwt _ => some 109
  | .InvalidEncryption _ => some 110
  | .NoTTL => some 111
  | .Internal _ => some 999
  | .Io _ | .Metrics _ | .Database _ | .PayloadError (.other _) => none

/-- The `Display` of `ApiErrorKind`, following the `#[error(...)]`
attributes in `error.rs`: `transparent` variants show the wrapped
error's display, the rest use their format strings. -/
def ApiErrorKind.display : ApiErrorKind → String
  | .Io e | .Metrics e | .VapidError e | .Jwt e => e.display
  | .Validation e => e.display
  | .PayloadError e => e.display
  | .Router e => e.display
  | .TokenHashValidation _ => "Error while validating token"
  | .Database e => "Database error: " ++ e.display
  | .InvalidToken => "Invalid token"
  | .NoUser => "UAID not found"
  | .NoSubscription => "No such subscription"
  | .InvalidEncryption s => s
  | .PayloadTooLarge n => "Data payload must be smaller than " ++ toString n ++ " bytes"
  | .InvalidApiVersion => "Invalid API version"
  | .NoTTL => "Missing TTL value"
  | .Internal s => s

/-- The `source()` of `ApiErrorKind`, following the `thiserror` derive in
`error.rs`: `#[error(transparent)]` forwards `source` to the wrapped
error's own source; `#[source]` / non-transparent `#[from]` fields are
themselves the source; `PayloadError` (no source attribute) and the
leaf variants have none. -/
def ApiErrorKind.source : ApiErrorKind → Option Src
  | .Io e | .Metrics e | .VapidError e | .Jwt e => e.source
  | .Validation e => e.src
  | .TokenHashValidation e | .Database e => some e
  | _ => none

/-- The chain of displayed causes of an `ApiErrorKind`, outermost source
first (the chain the `while let Some(source)` loop in `error.rs`
walks). -/
def ApiErrorKind.sourceChain (k : ApiErrorKind) : List String :=
  match k.source with
  | none => []
  | some s => s.chainList

/-- `ApiError` (`error.rs`): a kind plus the backtrace captured at
construction.  The backtrace's contents are a runtime diagnostic; the
embedding carries it as an uninterpreted string. -/
structure ApiError where
  kind : ApiErrorKind
  backtrace : String

/-- The blanket `impl<T> From<T> for ApiError` (`error.rs`): wrap the
kind and capture a backtrace (capture is a runtime effect; the embedding
records an empty trace). -/
def apiErrorFrom (k : ApiErrorKind) : ApiError :=
  { kind := k, backtrace := "" }

/-- The `while let Some(source)` loop body of `Display for ApiError`:
append one `"\n\nCaused by: "` entry for this source and every deeper
one. -/
def Src.causes : Src → String
  | .mk d none => "\n\nCaused by: " ++ d
  | .mk d (some s) => "\n\nCaused by: " ++ d ++ s.causes

/-- `Display for ApiError` (`error.rs`): the kind and backtrace, then the
chain of causes. -/
def ApiError.displayFull (e : ApiError) : String :=
  "Error: " ++ e.kind.display ++ "\nBacktrace: \n" ++ e.backtrace ++
    (match e.kind.source with
     | none => ""
     | some s => s.causes)

/-- The constant documentation URL `ERROR_URL` (`error.rs`). -/
def ERROR_URL : String :=
  "http://autopush.readthedocs.io/en/latest/http.html#error-codes"

/-- Modelled from the spec: `StatusCode::canonical_reason` lives in the
external `http` crate; the reason phrases for the statuses the taxonomy
(§7) produces. -/
def canonical_reason (status : Nat) : Option String :=
  if status = 400 then some "Bad Request"
  else if status = 401 then some "Unauthorized"
  else if status = 404 then some "Not Found"
  else if status = 410 then some "Gone"
  else if status = 413 then some "Payload Too Large"
  else if status = 500 then some "Internal Server Error"
  else none

/-- Serialize an `Option` the way serde renders `Option<usize>`:
`null` for `None`, a number otherwise. -/
def optNumValue : Option Nat → Value
  | none => .null
  | some n => .num n

/-- Serialize an `Option<&str>`: `null` for `None`. -/
def optStrValue : Option String → Value
  | none => .null
  | some s => .str s

/-- `impl Serialize for ApiError` (`error.rs`): a five-entry map, in
serialization order. -/
def ApiError.serialize (e : ApiError) : List (String × Value) :=
  [ ("code", .num e.kind.status),
    ("errno", optNumValue e.kind.errno),
    ("error", optStrValue (canonical_reason e.kind.status)),
    ("message", .str e.kind.display),
    ("more_info", .str ERROR_URL) ]

/-- `ApiResult<T>` (`error.rs`). -/
def ApiResult (T : Type) : Type := Except ApiError T

/-- Modelled from the spec: `url::Url` (external crate), as far as
`router.rs` uses it — an absolute base endpoint URL with a scheme, a
host authority, an optional port and a path. -/
structure UrlM where
  scheme : String
  host : String
  port : Option Nat
  path : String

/-- Render a `UrlM` to its string form (`Url::to_string`). -/
def UrlM.render (u : UrlM) : String :=
  u.scheme ++ "://" ++ u.host ++
    (match u.port with
     | none => ""
     | some p => ":" ++ toString p) ++
    u.path

/-- Modelled from the spec: `Url::join` (external crate) on a reference
beginning with `/` — an absolute-path reference, which RFC 3986
resolution resolves against the base's scheme and authority by
replacing the base's path.  Against an absolute http(s) base such a
join cannot fail, matching the spec's "construction must never fail". -/
def UrlM.joinAbsPath (u : UrlM) (ref : String) : UrlM :=
  { u with path := ref }

/-- Modelled from the spec: the user record inside a subscription
(`src/autoendpoint/src/extractors` is not among the sources): the user
identity `uaid` and the per-subscription router data. -/
structure UserM where
  uaid : String
  router_data : Option (List (String × Value))

/-- Modelled from the spec: a subscription — user plus optional VAPID
claim. -/
structure SubscriptionM where
  user : UserM
  vapid : Option String

/-- Modelled from the spec: notification headers; the TTL is a signed
value (the spec accepts the signed 32-bit range from the caller). -/
structure NotificationHeaders where
  ttl : Int

/-- Modelled from the spec: a `Notification`
(`src/autoendpoint/src/extractors/notification.rs` is not among the
sources): message identifier, headers, optional encrypted payload, and
the subscription. -/
structure Notification where
  message_id : String
  headers : NotificationHeaders
  data : Option String
  subscription : SubscriptionM

/-- Modelled from the spec: `RouterDataInput`
(`src/autoendpoint/src/extractors/router_data_input.rs` is not among
the sources): the caller-supplied registration token. -/
structure RouterDataInput where
  token : String

/-- Modelled from the spec: `RouterResponse`
(`src/autoendpoint/src/routers/mod.rs` is not among the sources): the
outcome of a successful send — a caller-visible location URL and the
TTL value to report back. -/
structure RouterResponse where
  location : String
  ttl : Nat

/-- Modelled from the spec: `RouterResponse::success(location, ttl)`. -/
def RouterResponse.success (location : String) (ttl : Nat) : RouterResponse :=
  { location := location, ttl := ttl }

/-- Modelled from the spec: the WNS settings fields `router.rs` reads
(`src/autoendpoint/src/routers/wns/settings.rs` is not among the
sources): the configured minimum TTL floor (`usize`). -/
structure WnsSettings where
  min_ttl : Nat

/-- Modelled from the spec: an authenticated WNS backend client
(`src/autoendpoint/src/routers/wns/client.rs` is not among the
sources).  Its network `send` behaviour is supplied separately as an
oracle; the pool entry carries the per-application credential it was
built from. -/
structure WnsClient where
  credential : String

/-- `WnsRouter` (`router.rs`): settings, base endpoint URL and the
client pool (a map from application ID to client, modelled as an
association list).  The metrics sink and the storage handle are
runtime effects outside the embedding. -/
structure WnsRouter where
  settings : WnsSettings
  endpoint_url : UrlM
  clients : List (String × WnsClient)

/-- `HashMap::contains_key` / `HashMap::get` key membership on the
client pool. -/
def poolContains (clients : List (String × WnsClient)) (app_id : String) : Bool :=
  match clients with
  | [] => false
  | (k, _) :: rest => if k = app_id then true else poolContains rest app_id

/-- `MAX_TTL` (`router.rs`): 28 days, in seconds. -/
def MAX_TTL : Nat := 28 * 24 * 60 * 60

/-- The `as usize` cast of the signed TTL (`router.rs` line 152 and
185) on a 64-bit target: reduction modulo `2 ^ 64`; a negative value
wraps to a huge unsigned one. -/
def castUsize (i : Int) : Nat := (i % (2 ^ 64 : Int)).toNat

/-- `WnsRouter::active` (`router.rs`): the connection is active iff any
clients are defined. -/
def WnsRouter.active (r : WnsRouter) : Bool :=
  !r.clients.isEmpty

/-- `WnsRouter::create_clients` (`router.rs`): build one client per
configured server credential, in order; the first construction failure
aborts the whole pool (`std::io::Result` propagation).  The client
constructor (network authentication in `WnsClient::new`) is supplied
as an oracle. -/
def create_clients (server_credentials : List (String × String))
    (mkClient : String → Except String WnsClient) :
    Except String (List (String × WnsClient)) :=
  match server_credentials with
  | [] => .ok []
  | (profile, cred) :: rest =>
    match mkClient cred with
    | .error e => .error e
    | .ok client =>
      match create_clients rest mkClient with
      | .error e => .error e
      | .ok pool => .ok ((profile, client) :: pool)

/-- `WnsRouter::routing_info` (`router.rs`): extract the
subscription-specific routing token and the application ID from the
stored router data; a missing or non-string `token` is
`NoRegistrationToken`, a missing or non-string `app_id` is `NoAppId`. -/
def routing_info (router_data : List (String × Value)) (uaid : String) :
    ApiResult (String × String) :=
  match (hmGet router_data "token").bind Value.as_str with
  | none => .error (apiErrorFrom (.Router (.Wns .NoRegistrationToken)))
  | some routing_token =>
    match (hmGet router_data "app_id").bind Value.as_str with
    | none => .error (apiErrorFrom (.Router (.Wns .NoAppId)))
    | some app_id => .ok (routing_token, app_id)

/-- `Router::register` for `WnsRouter` (`router.rs`): reject an
application ID with no client in the pool, otherwise build the
persisted router-data map with the registration token and the
application ID (`serde_json::to_value` of a string is that string and
cannot fail). -/
def register (r : WnsRouter) (router_data_input : RouterDataInput)
    (app_id : String) : Except RouterError (List (String × Value)) :=
  if poolContains r.clients app_id then
    .ok [("token", .str router_data_input.token), ("app_id", .str app_id)]
  else
    .error (.Wns (.InvalidAppId app_id))

/-- Modelled from the spec: the outbound message body assembled by
`build_message_data` (`src/autoendpoint/src/routers/common.rs` is not
among the sources) — pure, built from the notification's payload and
headers, never failing for a well-formed notification. -/
structure MessageData where
  body : Option String

/-- Modelled from the spec: `build_message_data` (Dispatch Helpers,
§4.4). -/
def build_message_data (notification : Notification) : ApiResult MessageData :=
  .ok { body := notification.data }

/-- A WNS send failure, as classified by the error-translation helper:
either the relay reports the registration permanently gone
(not-found), or some other upstream failure. -/
inductive WnsSendError where
  | notFound
  | upstream (display : String)

/-- Modelled from the spec: `handle_error` (Dispatch Helpers, §4.4,
`src/autoendpoint/src/routers/common.rs` is not among the sources):
a relay "not found"/"gone" failure becomes the unified `NotFound`
error (after the storage-pruning side effect, which is a runtime
effect outside this embedding); every other backend error is wrapped
into the taxonomy unchanged. -/
def handle_error (e : WnsSendError) : ApiError :=
  match e with
  | .notFound => apiErrorFrom (.Router .NotFound)
  | .upstream d => apiErrorFrom (.Router (.Wns (.upstream d)))

/-- One network send performed by `route_notification`: the client's
application ID, the routing token, the message body and the effective
wire TTL passed to `WnsClient::send`. -/
structure SendCall where
  app_id : String
  routing_token : String
  message_data : MessageData
  ttl : Nat

/-- `WnsRouter::route_notification` (`router.rs`).  The network send is
supplied as an oracle `send`; alongside the result, the embedding
returns the list of sends actually performed, so that "no network call
is made" is expressible.  Control flow follows the source: missing
router data fails with `NoRegistrationToken`; `routing_info` extracts
token and app ID; the effective TTL is
`MAX_TTL.min(min_ttl.max(ttl as usize))`; an app ID absent from the
pool fails with `InvalidAppId`; a failed send is translated by
`handle_error`; a successful send yields a `RouterResponse` whose
location joins the base endpoint with `/m/<message_id>` and whose TTL
is the notification's TTL cast to `usize`. -/
def route_notification (r : WnsRouter)
    (send : SendCall → Except WnsSendError Unit)
    (notification : Notification) :
    ApiResult RouterResponse × List SendCall :=
  match notification.subscription.user.router_data with
  | none => (.error (apiErrorFrom (.Router (.Wns .NoRegistrationToken))), [])
  | some router_data =>
    match routing_info router_data notification.subscription.user.uaid with
    | .error e => (.error e, [])
    | .ok (routing_token, app_id) =>
      let ttl := MAX_TTL.min (r.settings.min_ttl.max (castUsize notification.headers.ttl))
      if poolContains r.clients app_id then
        match build_message_data notification with
        | .error e => (.error e, [])
        | .ok message_data =>
          let call : SendCall :=
            { app_id := app_id, routing_token := routing_token,
              message_data := message_data, ttl := ttl }
          match send call with
          | .error e => (.error (handle_error e), [call])
          | .ok _ =>
            (.ok (RouterResponse.success
              (r.endpoint_url.joinAbsPath ("/m/" ++ notification.message_id)).render
              (castUsize notification.headers.ttl)), [call])
      else
        (.error (apiErrorFrom (.Router (.Wns (.InvalidAppId app_id)))), [])

/-- A concrete authenticated client for the `dev` application profile. -/
def devClient : WnsClient := { credential := "dev-credential" }

/-- A concrete router: floor TTL 60, base endpoint
`http://localhost:8080/`, one pooled client under `dev` (the spec's
end-to-end scenario A configuration). -/
def testRouter : WnsRouter :=
  { settings := { min_ttl := 60 },
    endpoint_url := { scheme := "http", host := "localhost", port := some 8080, path := "/" },
    clients := [("dev", devClient)] }

/-- A send oracle whose network sends always succeed. -/
def sendOk : SendCall → Except WnsSendError Unit := fun _ => .ok ()

/-- Concrete stored router data: `{token: "test-token", app_id: "dev"}`. -/
def testRD : List (String × Value) :=
  [("token", .str "test-token"), ("app_id", .str "dev")]

/-- A concrete notification with the given TTL and router data. -/
def mkNotification (ttl : Int) (rd : Option (List (String × Value))) : Notification :=
  { message_id := "test-message-id",
    headers := { ttl := ttl },
    data := none,
    subscription := { user := { uaid := "test-uaid", router_data := rd }, vapid := none } }

/-- Helper: on the success path (routing data present and complete, a
pooled client, a send oracle that succeeds) `route_notification`
performs exactly one send at the clamped TTL and returns the joined
location with the `as usize` cast of the requested TTL. -/
theorem route_notification_success (r : WnsRouter)
    (send : SendCall → Except WnsSendError Unit) (n : Notification)
    (rd : List (String × Value)) (tok app_id : String)
    (h1 : n.subscription.user.router_data = some rd)
    (h2 : hmGet rd "token" = some (.str tok))
    (h3 : hmGet rd "app_id" = some (.str app_id))
    (h4 : poolContains r.clients app_id = true)
    (h5 : ∀ c, send c = .ok ()) :
    route_notification r send n =
      (.ok (RouterResponse.success
          (r.endpoint_url.joinAbsPath ("/m/" ++ n.message_id)).render
          (castUsize n.headers.ttl)),
       [{ app_id := app_id, routing_token := tok, message_data := { body := n.data },
          ttl := MAX_TTL.min (r.settings.min_ttl.max (castUsize n.headers.ttl)) }]) := by
  simp [route_notification, h1, routing_info, h2, h3, h4, build_message_data, h5,
    Option.bind, Value.as_str]

/-- Helper: one `"\n\nCaused by: "` entry per chain element, in order. -/
def causedByAll (chain : List String) : String :=
  match chain with
  | [] => ""
  | m :: rest => "\n\nCaused by: " ++ m ++ causedByAll rest

/-- Helper: the `while let Some(source)` loop renders exactly one
`Caused by` entry per element of the source chain, in chain order. -/
theorem Src.causes_eq_causedByAll : ∀ s : Src, s.causes = causedByAll s.chainList
  | .mk d none => by
      simp [Src.causes, Src.chainList, causedByAll, String.append_empty]
  | .mk d (some s) => by
      simp [Src.causes, Src.chainList, causedByAll, Src.causes_eq_causedByAll s]

/-- C2: `status` and `errno` are pure, total, deterministic functions of
the `ApiErrorKind` (they are Lean functions of the kind alone), and the
taxonomy table holds: payload overflow → 413/104, invalid token and
invalid API version → 404/102, user gone → 410/103, subscription gone →
410/106, missing TTL → 400/111, malformed encryption headers → 400/110,
credential/auth-token errors → 401/109, internal fault → 500/999, and
I/O, metrics and storage errors → 500 with no errno. -/
theorem C2_status_errno_table :
    (∀ n, ApiErrorKind.status (.PayloadTooLarge n) = 413 ∧
      ApiErrorKind.errno (.PayloadTooLarge n) = some 104) ∧
    (ApiErrorKind.status (.PayloadError .overflow) = 413 ∧
      ApiErrorKind.errno (.PayloadError .overflow) = some 104) ∧
    (ApiErrorKind.status .InvalidToken = 404 ∧
      ApiErrorKind.errno .InvalidToken = some 102) ∧
    (ApiErrorKind.status .InvalidApiVersion = 404 ∧
      ApiErrorKind.errno .InvalidApiVersion = some 102) ∧
    (ApiErrorKind.status .NoUser = 410 ∧ ApiErrorKind.errno .NoUser = some 103) ∧
    (ApiErrorKind.status .NoSubscription = 410 ∧
      ApiErrorKind.errno .NoSubscription = some 106) ∧
    (ApiErrorKind.status .NoTTL = 400 ∧ ApiErrorKind.errno .NoTTL = some 111) ∧
    (∀ s, ApiErrorKind.status (.InvalidEncryption s) = 400 ∧
      ApiErrorKind.errno (.InvalidEncryption s) = some 110) ∧
    (∀ e, ApiErrorKind.status (.VapidError e) = 401 ∧
      ApiErrorKind.errno (.VapidError e) = some 109) ∧
    (∀ e, ApiErrorKind.status (.Jwt e) = 401 ∧
      ApiErrorKind.errno (.Jwt e) = some 109) ∧
    (∀ s, ApiErrorKind.status (.Internal s) = 500 ∧
      ApiErrorKind.errno (.Internal s) = some 999) ∧
    (∀ e, ApiErrorKind.status (.Io e) = 500 ∧ ApiErrorKind.errno (.Io e) = none) ∧
    (∀ e, ApiErrorKind.status (.Metrics e) = 500 ∧
      ApiErrorKind.errno (.Metrics e) = none) ∧
    (∀ e, ApiErrorKind.status (.Database e) = 500 ∧
      ApiErrorKind.errno (.Database e) = none) :=
  ⟨fun _ => ⟨rfl, rfl⟩, ⟨rfl, rfl⟩, ⟨rfl, rfl⟩, ⟨rfl, rfl⟩, ⟨rfl, rfl⟩, ⟨rfl, rfl⟩,
    ⟨rfl, rfl⟩, fun _ => ⟨rfl, rfl⟩, fun _ => ⟨rfl, rfl⟩, fun _ => ⟨rfl, rfl⟩,
    fun _ => ⟨rfl, rfl⟩, fun _ => ⟨rfl, rfl⟩, fun _ => ⟨rfl, rfl⟩, fun _ => ⟨rfl, rfl⟩⟩

/-- C5: the serialized body of every `ApiError` has exactly the five
documented keys, in order, with `code` equal to the kind's status,
`errno` equal to the kind's errno (`null` when `None`), `error` the
HTTP reason phrase of that status, `message` the kind's display string
and `more_info` the fixed documentation URL. -/
theorem C5_serialized_body (e : ApiError) :
    e.serialize.map Prod.fst = ["code", "errno", "error", "message", "more_info"] ∧
    hmGet e.serialize "code" = some (.num e.kind.status) ∧
    hmGet e.serialize "errno" = some (optNumValue e.kind.errno) ∧
    hmGet e.serialize "error" = some (optStrValue (canonical_reason e.kind.status)) ∧
    hmGet e.serialize "message" = some (.str e.kind.display) ∧
    hmGet e.serialize "more_info" = some (.str ERROR_URL) :=
  ⟨rfl, rfl, rfl, rfl, rfl, rfl⟩

/-- C9: displaying an `ApiError` prints the kind's own message and the
backtrace, followed by exactly one `Caused by` entry per source error
in its chain, ordered from outermost to innermost (innermost last). -/
theorem C9_display_causes (e : ApiError) :
    e.displayFull =
      "Error: " ++ e.kind.display ++ "\nBacktrace: \n" ++ e.backtrace ++
        causedByAll e.kind.sourceChain := by
  unfold ApiError.displayFull ApiErrorKind.sourceChain
  cases h : e.kind.source with
  | none => simp [causedByAll, String.append_empty]
  | some s => simp [Src.causes_eq_causedByAll s]

/-- C8: `active()` is true iff the client pool is nonempty, and a pool
built by `create_clients` holds one successfully constructed client per
configured credential, so the pool is nonempty iff at least one client
was successfully constructed. -/
theorem C8_active_iff_clients (r : WnsRouter) (server_credentials : List (String × String))
    (mkClient : String → Except String WnsClient) (pool : List (String × WnsClient)) :
    (r.active = true ↔ r.clients ≠ []) ∧
    (create_clients server_credentials mkClient = .ok pool →
      pool.map Prod.fst = server_credentials.map Prod.fst) := by
  constructor
  · obtain ⟨s, u, cl⟩ := r
    cases cl <;> simp [WnsRouter.active]
  · induction server_credentials generalizing pool with
    | nil =>
      intro h
      simp [create_clients] at h
      simp [← h]
    | cons head rest ih =>
      intro h
      obtain ⟨profile, cred⟩ := head
      simp only [create_clients] at h
      cases hmk : mkClient cred with
      | error e => simp [hmk] at h
      | ok client =>
        simp only [hmk] at h
        cases hrest : create_clients rest mkClient with
        | error e => simp [hrest] at h
        | ok pool2 =>
          simp only [hrest] at h
          cases h
          simp [ih pool2 hrest]

/-- Witness for C8 at a concrete router and credential list. -/
theorem C8_witness :
    (testRouter.active = true ↔ testRouter.clients ≠ []) ∧
    ([("dev", devClient)].map Prod.fst = [("dev", "dev-credential")].map Prod.fst) :=
  ⟨(C8_active_iff_clients testRouter [("dev", "dev-credential")]
      (fun c => .ok { credential := c }) [("dev", devClient)]).1,
   (C8_active_iff_clients testRouter [("dev", "dev-credential")]
      (fun c => .ok { credential := c }) [("dev", devClient)]).2 rfl⟩

/-- C4: `register` fails with the "unknown application identifier"
error exactly when the application ID has no entry in the client pool,
and that is the only error it can produce; it is a pure function of
the router's pool and its inputs (no network or storage effect in the
embedding). -/
theorem C4_register_invalid_app_iff (r : WnsRouter) (router_data_input : RouterDataInput)
    (app_id : String) :
    (register r router_data_input app_id = .error (.Wns (.InvalidAppId app_id)) ↔
      poolContains r.clients app_id = false) ∧
    (∀ e, register r router_data_input app_id = .error e →
      e = .Wns (.InvalidAppId app_id)) := by
  unfold register
  cases h : poolContains r.clients app_id <;> simp

/-- Witness for C4 at a concrete router: `unknown-app-id` has no pooled
client, so registration fails with that exact error. -/
theorem C4_witness :
    register testRouter { token := "test-token" } "unknown-app-id" =
      .error (.Wns (.InvalidAppId "unknown-app-id")) :=
  (C4_register_invalid_app_iff testRouter { token := "test-token" }
    "unknown-app-id").1.mpr rfl

/-- C7: for every accepted registration (the application ID has a
pooled client), the router data `register` returns contains everything
`route_notification` needs: `routing_info` on it succeeds and yields
the registered token and application ID. -/
theorem C7_register_roundtrip (r : WnsRouter) (router_data_input : RouterDataInput)
    (app_id uaid : String) (h : poolContains r.clients app_id = true) :
    register r router_data_input app_id =
      .ok [("token", .str router_data_input.token), ("app_id", .str app_id)] ∧
    routing_info [("token", .str router_data_input.token), ("app_id", .str app_id)] uaid =
      .ok (router_data_input.token, app_id) := by
  constructor
  · simp [register, h]
  · rfl

/-- Witness for C7: registering `dev` on the concrete router and
feeding the result to `routing_info`. -/
theorem C7_witness :
    register testRouter { token := "test-token" } "dev" =
      .ok [("token", .str "test-token"), ("app_id", .str "dev")] ∧
    routing_info [("token", .str "test-token"), ("app_id", .str "dev")] "test-uaid" =
      .ok ("test-token", "dev") :=
  C7_register_roundtrip testRouter { token := "test-token" } "dev" "test-uaid" rfl

/-- C3: `route_notification` fails early and distinctly, with no send
performed and a result independent of the network oracle: absent
routing data → "no registration token"; routing data without a `token`
key → the token-missing error (`NoRegistrationToken`); without an
`app_id` key → the distinct `NoAppId` error; an extracted `app_id`
with no pooled client → `InvalidAppId`.  In every case the list of
performed sends is empty. -/
theorem C3_early_distinct_failures (r : WnsRouter)
    (send : SendCall → Except WnsSendError Unit) (n : Notification) :
    (n.subscription.user.router_data = none →
      route_notification r send n =
        (.error (apiErrorFrom (.Router (.Wns .NoRegistrationToken))), [])) ∧
    (∀ rd, n.subscription.user.router_data = some rd →
      hmGet rd "token" = none →
      route_notification r send n =
        (.error (apiErrorFrom (.Router (.Wns .NoRegistrationToken))), [])) ∧
    (∀ rd tok, n.subscription.user.router_data = some rd →
      hmGet rd "token" = some (.str tok) →
      hmGet rd "app_id" = none →
      route_notification r send n =
        (.error (apiErrorFrom (.Router (.Wns .NoAppId))), [])) ∧
    (∀ rd tok app_id, n.subscription.user.router_data = some rd →
      hmGet rd "token" = some (.str tok) →
      hmGet rd "app_id" = some (.str app_id) →
      poolContains r.clients app_id = false →
      route_notification r send n =
        (.error (apiErrorFrom (.Router (.Wns (.InvalidAppId app_id)))), [])) := by
  refine ⟨fun h1 => ?_, fun rd h1 h2 => ?_, fun rd tok h1 h2 h3 => ?_,
    fun rd tok app_id h1 h2 h3 h4 => ?_⟩
  · simp [route_notification, h1]
  · simp [route_notification, h1, routing_info, h2]
  · simp [route_notification, h1, routing_info, h2, h3, Value.as_str]
  · simp [route_notification, h1, routing_info, h2, h3, h4, Value.as_str]

/-- Witness for C3: the four failure shapes at concrete notifications
against the concrete router (including the spec's scenario B,
`app_id = "unknown-app-id"` with no pooled client), each with an empty
send list. -/
theorem C3_witness :
    route_notification testRouter sendOk (mkNotification 0 none) =
      (.error (apiErrorFrom (.Router (.Wns .NoRegistrationToken))), []) ∧
    route_notification testRouter sendOk
        (mkNotification 0 (some [("app_id", .str "dev")])) =
      (.error (apiErrorFrom (.Router (.Wns .NoRegistrationToken))), []) ∧
    route_notification testRouter sendOk
        (mkNotification 0 (some [("token", .str "test-token")])) =
      (.error (apiErrorFrom (.Router (.Wns .NoAppId))), []) ∧
    route_notification testRouter sendOk
        (mkNotification 0 (some [("token", .str "test-token"),
          ("app_id", .str "unknown-app-id")])) =
      (.error (apiErrorFrom (.Router (.Wns (.InvalidAppId "unknown-app-id")))), []) :=
  ⟨(C3_early_distinct_failures testRouter sendOk (mkNotification 0 none)).1 rfl,
   (C3_early_distinct_failures testRouter sendOk
      (mkNotification 0 (some [("app_id", .str "dev")]))).2.1
      [("app_id", .str "dev")] rfl rfl,
   (C3_early_distinct_failures testRouter sendOk
      (mkNotification 0 (some [("token", .str "test-token")]))).2.2.1
      [("token", .str "test-token")] "test-token" rfl rfl rfl,
   (C3_early_distinct_failures testRouter sendOk
      (mkNotification 0 (some [("token", .str "test-token"),
        ("app_id", .str "unknown-app-id")]))).2.2.2
      [("token", .str "test-token"), ("app_id", .str "unknown-app-id")]
      "test-token" "unknown-app-id" rfl rfl rfl rfl⟩

/-- C1 counterexample: at requested TTL `-1` (floor 60), the claim's
clamping formula `min(ceiling, max(floor, requested))` yields 60, but
the wire send performed by the code uses TTL 2419200 (the ceiling,
because the `as usize` cast wraps `-1` first), and the response TTL is
the wrapped value `2^64 - 1`, not the original requested `-1`.  So
neither the claimed effective TTL nor the claimed response echo holds
for every notification. -/
theorem C1_counterexample :
    route_notification testRouter sendOk (mkNotification (-1) (some testRD)) =
      (.ok { location := "http://localhost:8080/m/test-message-id",
             ttl := 18446744073709551615 },
       [{ app_id := "dev", routing_token := "test-token",
          message_data := { body := none }, ttl := 2419200 }]) ∧
    ¬((2419200 : Int) = min 2419200 (max 60 (-1 : Int))) ∧
    ¬((18446744073709551615 : Int) = -1) := by
  refine ⟨rfl, by omega, by omega⟩

/-- C1 (amended): for every notification whose requested TTL is
nonnegative (within the accepted signed 32-bit range),
`route_notification` sends with effective wire TTL
`min(MAX_TTL, max(min_ttl, requested))` and the TTL field of the
returned `RouterResponse` equals the notification's original requested
TTL, not the clamped value, even when the requested TTL is below the
floor or above the ceiling. -/
theorem C1_ttl_clamp_and_echo (r : WnsRouter)
    (send : SendCall → Except WnsSendError Unit) (n : Notification)
    (rd : List (String × Value)) (tok app_id : String)
    (h0 : 0 ≤ n.headers.ttl) (h0b : n.headers.ttl < 2 ^ 31)
    (h1 : n.subscription.user.router_data = some rd)
    (h2 : hmGet rd "token" = some (.str tok))
    (h3 : hmGet rd "app_id" = some (.str app_id))
    (h4 : poolContains r.clients app_id = true)
    (h5 : ∀ c, send c = .ok ()) :
    route_notification r send n =
      (.ok { location := (r.endpoint_url.joinAbsPath ("/m/" ++ n.message_id)).render,
             ttl := n.headers.ttl.toNat },
       [{ app_id := app_id, routing_token := tok, message_data := { body := n.data },
          ttl := MAX_TTL.min (r.settings.min_ttl.max n.headers.ttl.toNat) }]) ∧
    ((n.headers.ttl.toNat : Int) = n.headers.ttl) := by
  have hcast : castUsize n.headers.ttl = n.headers.ttl.toNat := by
    unfold castUsize
    rw [Int.emod_eq_of_lt h0 (lt_trans h0b (by norm_num))]
  have h := route_notification_success r send n rd tok app_id h1 h2 h3 h4 h5
  rw [hcast] at h
  exact ⟨h, Int.toNat_of_nonneg h0⟩

/-- Witness for C1 (amended): the spec's scenario A — floor 60,
requested TTL 0, routing data `{token: "test-token", app_id: "dev"}`:
the wire send uses TTL 60 and the response echoes TTL 0. -/
theorem C1_witness :
    route_notification testRouter sendOk (mkNotification 0 (some testRD)) =
      (.ok { location := "http://localhost:8080/m/test-message-id", ttl := 0 },
       [{ app_id := "dev", routing_token := "test-token",
          message_data := { body := none }, ttl := 60 }]) ∧
    ((Int.toNat 0 : Int) = 0) :=
  C1_ttl_clamp_and_echo testRouter sendOk (mkNotification 0 (some testRD))
    testRD "test-token" "dev" (by decide) (by decide) rfl rfl rfl rfl
    (fun _ => rfl)

/-- C6: on a successful send, the response location is always the
configured base endpoint URL joined with `/m/<message_id>`: an
absolute-path join keeping the base's scheme, host and port, rendering
to `<scheme>://<authority>/m/<message_id>`.  The join and the render
are total functions, so construction never fails. -/
theorem C6_success_location (r : WnsRouter)
    (send : SendCall → Except WnsSendError Unit) (n : Notification)
    (rd : List (String × Value)) (tok app_id : String)
    (h1 : n.subscription.user.router_data = some rd)
    (h2 : hmGet rd "token" = some (.str tok))
    (h3 : hmGet rd "app_id" = some (.str app_id))
    (h4 : poolContains r.clients app_id = true)
    (h5 : ∀ c, send c = .ok ()) :
    (route_notification r send n).1 =
      .ok (RouterResponse.success
        (r.endpoint_url.joinAbsPath ("/m/" ++ n.message_id)).render
        (castUsize n.headers.ttl)) ∧
    r.endpoint_url.joinAbsPath ("/m/" ++ n.message_id) =
      { scheme := r.endpoint_url.scheme, host := r.endpoint_url.host,
        port := r.endpoint_url.port, path := "/m/" ++ n.message_id } ∧
    (r.endpoint_url.joinAbsPath ("/m/" ++ n.message_id)).render =
      r.endpoint_url.scheme ++ "://" ++ r.endpoint_url.host ++
        (match r.endpoint_url.port with
         | none => ""
         | some p => ":" ++ toString p) ++ ("/m/" ++ n.message_id) := by
  have h := route_notification_success r send n rd tok app_id h1 h2 h3 h4 h5
  refine ⟨?_, rfl, rfl⟩
  rw [h]

/-- Witness for C6: a successful send on the concrete router yields the
location `http://localhost:8080/m/test-message-id`. -/
theorem C6_witness :
    (route_notification testRouter sendOk (mkNotification 7 (some testRD))).1 =
      .ok { location := "http://localhost:8080/m/test-message-id", ttl := 7 } ∧
    testRouter.endpoint_url.joinAbsPath "/m/test-message-id" =
      { scheme := "http", host := "localhost", port := some 8080,
        path := "/m/test-message-id" } ∧
    (testRouter.endpoint_url.joinAbsPath "/m/test-message-id").render =
      "http://localhost:8080/m/test-message-id" :=
  C6_success_location testRouter sendOk (mkNotification 7 (some testRD))
    testRD "test-token" "dev" rfl rfl rfl rfl (fun _ => rfl)

/-- C10: for every notification with a negative requested TTL (in the
accepted signed 32-bit range), the `as usize` cast wraps before
clamping, so the effective wire TTL is the 28-day ceiling `MAX_TTL`
(2419200 seconds) — not the configured floor — and the response echoes
the wrapped unsigned value `2^64 + ttl`, which is not the negative
value the caller requested. -/
theorem C10_negative_ttl_wraps (r : WnsRouter)
    (send : SendCall → Except WnsSendError Unit) (n : Notification)
    (rd : List (String × Value)) (tok app_id : String)
    (hneg : n.headers.ttl < 0) (hrange : -(2 ^ 31) ≤ n.headers.ttl)
    (hfloor : r.settings.min_ttl < MAX_TTL)
    (h1 : n.subscription.user.router_data = some rd)
    (h2 : hmGet rd "token" = some (.str tok))
    (h3 : hmGet rd "app_id" = some (.str app_id))
    (h4 : poolContains r.clients app_id = true)
    (h5 : ∀ c, send c = .ok ()) :
    route_notification r send n =
      (.ok { location := (r.endpoint_url.joinAbsPath ("/m/" ++ n.message_id)).render,
             ttl := (2 ^ 64 + n.headers.ttl).toNat },
       [{ app_id := app_id, routing_token := tok, message_data := { body := n.data },
          ttl := MAX_TTL }]) ∧
    MAX_TTL ≠ r.settings.min_ttl ∧
    ¬(((2 ^ 64 + n.headers.ttl).toNat : Int) = n.headers.ttl) := by
  have hcast : castUsize n.headers.ttl = (2 ^ 64 + n.headers.ttl).toNat := by
    unfold castUsize
    omega
  have hclamp : MAX_TTL.min (r.settings.min_ttl.max ((2 ^ 64 + n.headers.ttl).toNat)) =
      MAX_TTL := by
    have hw : MAX_TTL ≤ (2 ^ 64 + n.headers.ttl).toNat := by
      unfold MAX_TTL
      omega
    exact Nat.min_eq_left (le_trans hw (Nat.le_max_right _ _))
  have h := route_notification_success r send n rd tok app_id h1 h2 h3 h4 h5
  rw [hcast, hclamp] at h
  refine ⟨h, by omega, by omega⟩

/-- Witness for C10: requested TTL `-2` on the concrete router (floor
60): the wire send uses TTL 2419200 and the response echoes the
wrapped value `2^64 - 2`. -/
theorem C10_witness :
    route_notification testRouter sendOk (mkNotification (-2) (some testRD)) =
      (.ok { location := "http://localhost:8080/m/test-message-id",
             ttl := 18446744073709551614 },
       [{ app_id := "dev", routing_token := "test-token",
          message_data := { body := none }, ttl := 2419200 }]) ∧
    MAX_TTL ≠ testRouter.settings.min_ttl ∧
    ¬((18446744073709551614 : Int) = -2) :=
  C10_negative_ttl_wraps testRouter sendOk (mkNotification (-2) (some testRD))
    testRD "test-token" "dev" (by decide) (by decide) (by decide)
    rfl rfl rfl rfl (fun _ => rfl)
